import Mathlib

/-!
Shallow embedding of the TikTokDownloader Notion-synchronization scripts.

Sources embedded:
* `src/src/notion_downloader.py`   — class `NotionDownloader` (prefix `nd_`)
* `notion_downloader_main.py`      — class `NotionManager` (prefix `nm_`) and
  the driver functions `download_and_update` / `main`
* `tiktok_downloader_api.py`       — `_download_video` (prefix `dl_`)

Modelling conventions:
* Notion JSON objects are typed structures; a Python dict key that may be
  present or absent becomes an `Option` field; a JSON value that may be
  `null` becomes a nested `Option`.
* Pages returned by the Notion API always carry an `"id"` key, so `Page.id`
  is a plain `String`.
* Remote calls are modelled by explicit oracle parameters: a patch call
  either succeeds or fails (`Bool`); exceptions raised by the external
  download machinery are modelled as `Except` values at the places the
  Python source awaits an external call.
-/

deriving instance DecidableEq for Except

/-- JSON object stored under the `"text"` key of a rich-text item:
`content` is `some s` when the `"content"` key is present. -/
structure TextObj where
  content : Option String
deriving DecidableEq, Repr, Inhabited

/-- One element of a Notion `rich_text` / `title` array.  The source code
reads either `item["text"]["content"]` or `item["plain_text"]`. -/
structure RichItem where
  text : Option TextObj
  plain_text : Option String
deriving DecidableEq, Repr, Inhabited

/-- A Notion property object as inspected by the Python code via
`"key" in prop` membership tests.  Each field is `some _` exactly when the
corresponding JSON key is present; `otherKeys` lists the remaining keys
(such as `"type"`, `"id"`, `"checkbox"`), which only matter for Python
truthiness of the dict. -/
structure NProperty where
  url : Option (Option String) := none
  rich_text : Option (List RichItem) := none
  title : Option (List RichItem) := none
  select : Option (Option String) := none
  status : Option (Option String) := none
  otherKeys : List String := []
deriving DecidableEq, Repr, Inhabited

/-- Python truthiness of the property dict: non-empty iff it has any key. -/
def NProperty.truthy (p : NProperty) : Bool :=
  p.url.isSome || p.rich_text.isSome || p.title.isSome ||
    p.select.isSome || p.status.isSome || !p.otherKeys.isEmpty

/-- A Notion page: an id plus its `"properties"` mapping. -/
structure Page where
  id : String
  properties : List (String × NProperty)
deriving DecidableEq, Repr, Inhabited

/-- Lookup `page["properties"].get(name)` — first binding wins, as in a dict. -/
def Page.getProp (page : Page) (name : String) : Option NProperty :=
  (page.properties.find? (fun kv => kv.1 = name)).map (fun kv => kv.2)

/-- Test `str.startswith(("http://", "https://"))`, written over the character
lists so that concrete instances evaluate in the kernel. -/
def startsWithHttp (s : String) : Bool :=
  List.isPrefixOf "http://".data s.data || List.isPrefixOf "https://".data s.data

/-! ### `NotionManager.get_url_from_page` (notion_downloader_main.py 89–117) -/

/-- The `for text in url_prop["rich_text"]` loop: return the first element
whose `text.content` is present and starts with a recognized scheme. -/
def nm_rich_first_url : List RichItem → Option String
  | [] => none
  | it :: rest =>
    match it.text with
    | some t =>
      match t.content with
      | some c => if startsWithHttp c then some c else nm_rich_first_url rest
      | none => nm_rich_first_url rest
    | none => nm_rich_first_url rest

/-- Function `NotionManager.get_url_from_page`: walrus test on `properties.get("抖音url")`
(absent or empty dict is falsy), then `if "url" in url_prop: return
url_prop["url"]` (a present-but-null url is returned as `None`), then the
rich-text scan, else `None`. -/
def nm_get_url_from_page (page : Page) : Option String :=
  match page.getProp "抖音url" with
  | none => none
  | some p =>
    if !p.truthy then none
    else
      match p.url with
      | some v => v
      | none =>
        match p.rich_text with
        | some items => if items.isEmpty then none else nm_rich_first_url items
        | none => none

/-! ### `NotionDownloader.get_url_from_page`, second definition
(src/src/notion_downloader.py 847–876): the one that is effective at class
level, reading only the `"抖音url"` property and returning `""` on miss. -/

/-- Read `rich_texts[0].get("text", dict()).get("content", "")`. -/
def item_content_or_empty (it : RichItem) : String :=
  match it.text with
  | some t => t.content.getD ""
  | none => ""

/-- Second (later) definition of `NotionDownloader.get_url_from_page`. -/
def nd_get_url_from_page (page : Page) : String :=
  let p := (page.getProp "抖音url").getD default
  match p.url with
  | some v => v.getD ""
  | none =>
    match p.rich_text with
    | some items =>
      match items with
      | [] => ""
      | it :: _ => item_content_or_empty it
    | none =>
      match p.title with
      | some items =>
        match items with
        | [] => ""
        | it :: _ => item_content_or_empty it
      | none => ""

/-! ### `NotionDownloader.get_url_from_page`, first definition
(src/src/notion_downloader.py 131–162): scans the candidate field names
`抖音链接`, `URL`, `视频链接`, `链接`; `prop["rich_text"][0]["plain_text"]`
raises `KeyError` when `plain_text` is absent, caught by the surrounding
`try`, which returns `None`. -/

/-- Read `item["plain_text"]`: raises (modelled as `.error`) when absent. -/
def item_plain_text (it : RichItem) : Except Unit String :=
  match it.plain_text with
  | some s => Except.ok s
  | none => Except.error ()

/-- The `for name in url_property_names` loop of the first definition. -/
def nd_first_url_loop (page : Page) : List String → Except Unit (Option String)
  | [] => Except.ok none
  | n :: rest =>
    match page.getProp n with
    | none => nd_first_url_loop page rest
    | some p =>
      match p.url with
      | some v => Except.ok v
      | none =>
        match p.rich_text with
        | some (it :: _) => (item_plain_text it).map some
        | _ =>
          match p.title with
          | some (it :: _) => (item_plain_text it).map some
          | _ => nd_first_url_loop page rest

/-- First (earlier, shadowed) definition of
`NotionDownloader.get_url_from_page`. -/
def nd_get_url_first (page : Page) : Option String :=
  match nd_first_url_loop page ["抖音链接", "URL", "视频链接", "链接"] with
  | Except.ok v => v
  | Except.error _ => none

/-! ### Python class-body shadowing -/

/-- Python class-body semantics: the body is executed top to bottom and each
`def` binds its name in the class namespace, so a later binding overwrites an
earlier one.  Lookup therefore returns the LAST binding of a name. -/
def classAttrLookup (bindings : List (String × Nat)) (name : String) : Option Nat :=
  (bindings.reverse.find? (fun kv => kv.1 = name)).map (fun kv => kv.2)

/-- The method bindings of `class NotionDownloader`, in source order, each
paired with its index in the class body.  `get_url_from_page` is bound at
index 4 (line 131) and again at index 16 (line 847). -/
def ndClassBindings : List (String × Nat) :=
  [("init", 0), ("aenter", 1), ("aexit", 2), ("query_database", 3),
   ("get_url_from_page", 4), ("update_page_status", 5),
   ("update_page_property", 6), ("get_page", 7),
   ("update_page_properties", 8), ("upload_file_to_notion", 9),
   ("download_video", 10), ("simple_download_video", 11),
   ("process_notion_database", 12), ("get_videos_to_download", 13),
   ("upload_video_to_notion", 14), ("run", 15),
   ("get_url_from_page", 16)]

/-! ### Status-field encoding detection and update payloads -/

/-- The four status-field encodings recognized by
`NotionDownloader.update_page_status` (src/src/notion_downloader.py 186–193). -/
inductive StatusEncoding where
  | selectEnc
  | richTextEnc
  | titleEnc
  | statusEnc
deriving DecidableEq, Repr

/-- The chained `if "select" in status_property: ... elif ... ` detection of
the status property's encoding (src/src/notion_downloader.py 184–193). -/
def detectStatusType (p : NProperty) : Option StatusEncoding :=
  if p.select.isSome then some StatusEncoding.selectEnc
  else if p.rich_text.isSome then some StatusEncoding.richTextEnc
  else if p.title.isSome then some StatusEncoding.titleEnc
  else if p.status.isSome then some StatusEncoding.statusEnc
  else none

/-- A property-update payload for the status field, one constructor per
distinct JSON shape the code can emit (src/src/notion_downloader.py 196–236
and notion_downloader_main.py 135–141). -/
inductive StatusPayload where
  | selectPayload (name : String)
  | richTextPayload (content : String)
  | titlePayload (content : String)
  | statusPayload (name : String)
deriving DecidableEq, Repr

/-- The encoding a payload is shaped for. -/
def payloadEncoding : StatusPayload → StatusEncoding
  | StatusPayload.selectPayload _ => StatusEncoding.selectEnc
  | StatusPayload.richTextPayload _ => StatusEncoding.richTextEnc
  | StatusPayload.titlePayload _ => StatusEncoding.titleEnc
  | StatusPayload.statusPayload _ => StatusEncoding.statusEnc

/-- Method `NotionDownloader.update_page_status` (src/src/notion_downloader.py
164–251), payload part: after retrieving the page it detects the encoding of
the `"抖音状态"` property and builds the matching payload; with no
recognized encoding it warns and returns without building any payload. -/
def nd_update_page_status_payload (page : Page) (statusLabel : String) :
    Option StatusPayload :=
  match detectStatusType ((page.getProp "抖音状态").getD default) with
  | some StatusEncoding.selectEnc => some (StatusPayload.selectPayload statusLabel)
  | some StatusEncoding.richTextEnc => some (StatusPayload.richTextPayload statusLabel)
  | some StatusEncoding.titleEnc => some (StatusPayload.titlePayload statusLabel)
  | some StatusEncoding.statusEnc => some (StatusPayload.statusPayload statusLabel)
  | none => none

/-- Full result of `NotionDownloader.update_page_status`: `retrieved` models
`pages.retrieve` (a falsy page means early `False`); `patchOk` models the
outcome of the `pages.update` call (an exception is caught and yields
`False`).  Returns the boolean result paired with the patch call issued, if
any. -/
def nd_update_page_status (retrieved : Option Page) (statusLabel : String)
    (patchOk : Bool) : Bool × Option StatusPayload :=
  match retrieved with
  | none => (false, none)
  | some page =>
    match nd_update_page_status_payload page statusLabel with
    | none => (false, none)
    | some pl => (patchOk, some pl)

/-- Method `NotionManager.update_page_status` (notion_downloader_main.py 119–165):
unconditionally builds a `status`-shaped payload for `"抖音状态"`, with no
encoding discovery at all. -/
def nm_update_page_status_payload (statusLabel : String) : StatusPayload :=
  StatusPayload.statusPayload statusLabel

/-- Boolean result of `NotionManager.update_page_status`: the payload above
is always patched; the result is the patch outcome. -/
def nm_update_page_status (patchOk : Bool) : Bool := patchOk

/-! ### `_download_video` (tiktok_downloader_api.py 14–96) -/

/-- The result dictionary of `_download_video`; it is initialized with all
five keys before the `try` block, so every returned dictionary has exactly
these keys. -/
structure DLResult where
  success : Bool
  message : String
  video_path : Option String
  cover_path : Option String
  video_info : List (String × String)
deriving DecidableEq, Repr

/-- Initial `result = dict(success=False, message="", video_path=None,
cover_path=None, video_info=dict())`. -/
def dlInitResult : DLResult :=
  { success := false, message := "", video_path := none,
    cover_path := none, video_info := [] }

/-- Oracle for the external machinery awaited inside `_download_video`.
Each field models one awaited external step; `.error e` means that step
raised an exception whose `str` is `e`.  All exception points in the body
occur before `result` is mutated, so the `except` handler always sees the
initial dictionary. -/
structure DLEnv where
  setup : Except String Unit
  links_run : Except String (List String)
  links_tiktok_run : Except String (List String)
  handle_detail : Except String (Option String)
  glob_mp4 : Except String (List String)
  glob_fallback : Except String (List String)
  mtime : String → Nat

/-- Insertion step for the modelling of
`video_files.sort(key=lambda x: x.stat().st_mtime, reverse=True)`. -/
def insertByMtimeDesc (mtime : String → Nat) (f : String) :
    List String → List String
  | [] => [f]
  | g :: gs =>
    if mtime g ≤ mtime f then f :: g :: gs
    else g :: insertByMtimeDesc mtime f gs

/-- Stable insertion sort by modification time, newest first (Python's
stable sort with `reverse=True` keeps the original order among equal
keys). -/
def sortByMtimeDesc (mtime : String → Nat) : List String → List String
  | [] => []
  | f :: rest => insertByMtimeDesc mtime f (sortByMtimeDesc mtime rest)

/-- The `try` block of `_download_video`: initialization, id extraction with
the `if not any(ids)` early return, `_handle_detail`, the two glob passes,
and result assembly.  `Except.error` is an exception escaping the block. -/
def dv_body (url : String) (is_tiktok : Bool) (env : DLEnv) :
    Except String DLResult :=
  match env.setup with
  | Except.error e => Except.error e
  | Except.ok _ =>
    match (if is_tiktok then env.links_tiktok_run else env.links_run) with
    | Except.error e => Except.error e
    | Except.ok ids =>
      if !ids.any (fun i => i ≠ "") then
        Except.ok { dlInitResult with message := "提取作品ID失败: " ++ url }
      else
        match env.handle_detail with
        | Except.error e => Except.error e
        | Except.ok preview =>
          match env.glob_mp4 with
          | Except.error e => Except.error e
          | Except.ok files1 =>
            match (if files1.isEmpty then env.glob_fallback
                   else Except.ok files1) with
            | Except.error e => Except.error e
            | Except.ok files =>
              match sortByMtimeDesc env.mtime files with
              | [] =>
                Except.ok { dlInitResult with message := "下载完成但未找到视频文件" }
              | newest :: _ =>
                let base :=
                  { dlInitResult with video_path := some newest,
                                      success := true, message := "下载成功" }
                match preview with
                | some p =>
                  if p ≠ "" then Except.ok { base with cover_path := some p }
                  else Except.ok base
                | none => Except.ok base

/-- Function `_download_video`: the `except Exception` handler converts any raised
exception into a returned result whose message carries the error text. -/
def dl_download_video (url : String) (is_tiktok : Bool) (env : DLEnv) :
    DLResult :=
  match dv_body url is_tiktok env with
  | Except.ok r => r
  | Except.error e =>
    { dlInitResult with message := "下载过程中发生错误: " ++ e }

/-! ### `download_and_update` (notion_downloader_main.py 226–274) -/

/-- Python truthiness of the extracted URL (`if not url:` skips both `None`
and the empty string). -/
def url_truthy : Option String → Bool
  | some s => s ≠ ""
  | none => false

/-- Per-record outcome of `download_and_update`. -/
inductive RecordOutcome where
  | skipped
  | reconciled (label : String) (writeOk : Bool)
deriving DecidableEq, Repr

/-- Function `download_and_update`: extract the URL via
`NotionManager.get_url_from_page`, skip when falsy, else run
`_download_video` and write `已下载` on success, `下载失败` on failure,
through `NotionManager.update_page_status`.  Returns the outcome together
with the list of status patches issued for this record. -/
def download_and_update (page : Page) (env : DLEnv) (patchOk : Bool) :
    RecordOutcome × List StatusPayload :=
  let url := nm_get_url_from_page page
  if !url_truthy url then (RecordOutcome.skipped, [])
  else
    let r := dl_download_video (url.getD "") false env
    if r.success then
      (RecordOutcome.reconciled "已下载" (nm_update_page_status patchOk),
       [nm_update_page_status_payload "已下载"])
    else
      (RecordOutcome.reconciled "下载失败" (nm_update_page_status patchOk),
       [nm_update_page_status_payload "下载失败"])

/-- The `for page in pages: await download_and_update(...)` loop of `main`
(notion_downloader_main.py 405–406), written as the source's sequential
fold so that each record is handled in order. -/
def nm_pass (pages : List Page) (envOf : Page → DLEnv)
    (patchOf : Page → Bool) : List RecordOutcome :=
  pages.foldl
    (fun acc p => acc ++ [(download_and_update p (envOf p) (patchOf p)).1]) []

/-! ### `NotionDownloader.process_notion_database`
(src/src/notion_downloader.py 613–703) -/

/-- Line 645: `url = url_property.get("url", "") or
url_property.get("rich_text", [dict()])[0].get("text", dict()).get("content", "")`.
A present-but-empty `rich_text` array makes the index `[0]` raise
(`.error`), which the per-record `except` catches. -/
def pnd_extract_url (p : NProperty) : Except Unit String :=
  let u : String :=
    match p.url with
    | some (some s) => s
    | _ => ""
  if u ≠ "" then Except.ok u
  else
    match p.rich_text with
    | none => Except.ok ""
    | some [] => Except.error ()
    | some (it :: _) => Except.ok (item_content_or_empty it)

/-- Result of one `update_page_properties` call
(src/src/notion_downloader.py 352–376): the `httpx` patch there is not
wrapped in any try/except, so the call either raises (`.error`, e.g. a
transport error or timeout) or completes, returning whether the remote
answered 200.  `patchCompletes` is true when the call did not raise;
`process_notion_database` ignores the returned boolean itself. -/
def patchCompletes : Except Unit Bool → Bool
  | Except.ok _ => true
  | Except.error _ => false

/-- Oracle for one iteration of the `process_notion_database` loop: the
three `update_page_properties` calls it can make — the `下载中` write
(line 652), the terminal write (line 666 or 685), and the `except`
handler's `下载失败` write (line 697) — each either complete or raise;
`dl` is the result of `download_video`, which catches its own exceptions
and returns `None` on failure. -/
structure PndOracle where
  patch1 : Except Unit Bool
  dl : Option String
  patch2 : Except Unit Bool
  patchH : Except Unit Bool

/-- The `except` handler of the per-record try (lines 694–703): it issues
one `下载失败` status patch, and when that patch itself raises the new
exception escapes the iteration (second component `true`). -/
def pnd_handler (o : PndOracle) : List StatusPayload × Bool :=
  ([StatusPayload.selectPayload "下载失败"], !patchCompletes o.patchH)

/-- One iteration of the `for page in pages` loop of
`process_notion_database` (lines 638–703): the status patches issued for
that page via `update_page_properties`, in order, paired with whether an
exception escaped the iteration.  URL extraction may raise (caught by the
per-record `except`); each issued patch is recorded even when the call
raises mid-flight; a raise inside the try body runs the handler, whose own
patch may raise in turn. -/
def pnd_process_page (page : Page) (o : PndOracle) :
    List StatusPayload × Bool :=
  match pnd_extract_url ((page.getProp "抖音url").getD default) with
  | Except.error _ => pnd_handler o
  | Except.ok u =>
    if u = "" then ([], false)
    else
      match o.patch1 with
      | Except.error _ =>
        (StatusPayload.selectPayload "下载中" :: (pnd_handler o).1,
         (pnd_handler o).2)
      | Except.ok _ =>
        match o.dl, o.patch2 with
        | some _, Except.ok _ =>
          ([StatusPayload.selectPayload "下载中",
            StatusPayload.selectPayload "待审核"], false)
        | some _, Except.error _ =>
          (StatusPayload.selectPayload "下载中" ::
            StatusPayload.selectPayload "待审核" :: (pnd_handler o).1,
           (pnd_handler o).2)
        | none, Except.ok _ =>
          ([StatusPayload.selectPayload "下载中",
            StatusPayload.selectPayload "下载失败"], false)
        | none, Except.error _ =>
          (StatusPayload.selectPayload "下载中" ::
            StatusPayload.selectPayload "下载失败" :: (pnd_handler o).1,
           (pnd_handler o).2)

/-- The `process_notion_database` loop: records are processed in order, but
an exception escaping one iteration (a raising patch inside the `except`
handler) propagates — there is no enclosing try/except in
`process_notion_database`, `run`, or that module's `main` — so the
remaining records of the batch are not processed.  Returns the traces of
the records actually processed and whether the pass aborted. -/
def pnd_pass : List Page → (Page → PndOracle) →
    List (List StatusPayload) × Bool
  | [], _ => ([], false)
  | p :: rest, oOf =>
    match pnd_process_page p (oOf p) with
    | (tr, true) => ([tr], true)
    | (tr, false) => (tr :: (pnd_pass rest oOf).1, (pnd_pass rest oOf).2)

/-! ### Stubbed store and the synchronization pass of `main`
(notion_downloader_main.py 386–406) -/

/-- A record in the stubbed remote store: the page plus the current value of
its `"抖音状态"` status field, which the stub reflects writes into. -/
structure SRecord where
  page : Page
  statusValue : String
deriving DecidableEq, Repr

/-- The query of `main`'s second step: filter `抖音状态 equals 待下载`. -/
def queryPending (store : List SRecord) : List SRecord :=
  store.filter (fun r => r.statusValue = "待下载")

/-- The terminal label `download_and_update` writes for a record, if any:
`none` when the URL is falsy (record skipped, no fetch, no write). -/
def recordWrite (page : Page) (fetchSuccess : Bool) : Option String :=
  if url_truthy (nm_get_url_from_page page) then
    some (if fetchSuccess then "已下载" else "下载失败")
  else none

/-- Ids fetched during one pass: exactly the queried records whose URL is
truthy (those invoke `_download_video`). -/
def passFetches (store : List SRecord) (_fetchOf : String → Bool) : List String :=
  (queryPending store).filterMap
    (fun r => if url_truthy (nm_get_url_from_page r.page) then
                some r.page.id
              else none)

/-- Status writes (id, label) issued during one pass. -/
def passWrites (store : List SRecord) (fetchOf : String → Bool) :
    List (String × String) :=
  (queryPending store).filterMap
    (fun r => (recordWrite r.page (fetchOf r.page.id)).map
                (fun lbl => (r.page.id, lbl)))

/-- The stub store reflecting one status write back: every record whose page
id matches gets the written label. -/
def applyWrite (store : List SRecord) (w : String × String) : List SRecord :=
  store.map (fun r => if r.page.id = w.1 then { r with statusValue := w.2 } else r)

/-- Reflecting a whole pass's writes, in order. -/
def applyWrites (store : List SRecord) (ws : List (String × String)) :
    List SRecord :=
  ws.foldl applyWrite store

/-! ### Concrete pages used as witnesses and counterexamples -/

/-- A page whose `抖音状态` field uses the `select` encoding. -/
def selStatusPage : Page :=
  { id := "page-sel",
    properties :=
      [("抖音状态",
        { select := some (some "待下载"), otherKeys := ["id", "type"] })] }

/-- A page whose `抖音状态` field uses an unrecognized (checkbox) encoding. -/
def checkboxStatusPage : Page :=
  { id := "page-chk",
    properties :=
      [("抖音状态", { otherKeys := ["checkbox", "id", "type"] })] }

/-- A page whose `抖音url` field is rich text whose FIRST element is not a
URL while the SECOND element is. -/
def richUrlPage : Page :=
  { id := "page-rich",
    properties :=
      [("抖音url",
        { rich_text := some
            [{ text := some { content := some "备注资料" }, plain_text := some "备注资料" },
             { text := some { content := some "https://example.com/v/1" },
               plain_text := some "https://example.com/v/1" }],
          otherKeys := ["id", "type"] })] }

/-- A page whose `抖音url` field is a url-typed property holding a value
with no recognized URL scheme. -/
def helloUrlPage : Page :=
  { id := "page-hello",
    properties :=
      [("抖音url", { url := some (some "hello"), otherKeys := ["id", "type"] })] }

/-- A page with a well-formed url-typed `抖音url` property. -/
def goodUrlPage : Page :=
  { id := "abc",
    properties :=
      [("抖音url",
        { url := some (some "https://example.com/v/1"),
          otherKeys := ["id", "type"] }),
       ("抖音状态",
        { status := some (some "待下载"), otherKeys := ["id", "type"] })] }

/-- A page holding its URL under the first definition's candidate name
`抖音链接` and having no `抖音url` property at all. -/
def linkNamePage : Page :=
  { id := "page-link",
    properties :=
      [("抖音链接",
        { url := some (some "https://example.com/v/9"),
          otherKeys := ["id", "type"] })] }

/-- A page with no URL-bearing property. -/
def emptyUrlPage : Page :=
  { id := "page-empty", properties := [] }

/-- A download oracle in which everything succeeds and one mp4 is found. -/
def okEnv : DLEnv :=
  { setup := Except.ok (),
    links_run := Except.ok ["7314500000000000000"],
    links_tiktok_run := Except.ok [],
    handle_detail := Except.ok none,
    glob_mp4 := Except.ok ["/out/1.mp4"],
    glob_fallback := Except.ok [],
    mtime := fun _ => 0 }

/-- A download oracle whose very first external step raises. -/
def failEnv : DLEnv :=
  { setup := Except.error "boom",
    links_run := Except.ok [],
    links_tiktok_run := Except.ok [],
    handle_detail := Except.ok none,
    glob_mp4 := Except.ok [],
    glob_fallback := Except.ok [],
    mtime := fun _ => 0 }

/-- An oracle in which every patch call completes and the download
succeeds. -/
def okPatchOracle : PndOracle :=
  { patch1 := Except.ok true, dl := some "/out/1.mp4",
    patch2 := Except.ok true, patchH := Except.ok true }

/-- An oracle in which the terminal patch and the handler's own patch both
raise (e.g. a transport error on each attempt). -/
def raisingPatchOracle : PndOracle :=
  { patch1 := Except.ok true, dl := some "/out/1.mp4",
    patch2 := Except.error (), patchH := Except.error () }

/-- A one-record stubbed store holding a pending record with a good URL. -/
def demoStore : List SRecord := [{ page := goodUrlPage, statusValue := "待下载" }]

/-- A fetch oracle reporting success for every id. -/
def demoFetch : String → Bool := fun _ => true

/-- First element of a rich-text/title array as the second
`get_url_from_page` definition reads it (`""` when the array is empty). -/
def headContent : List RichItem → String
  | [] => ""
  | it :: _ => item_content_or_empty it

/-! ## Theorems -/

/-- Helper: the `for` loops of both passes, written as the source's
sequential accumulation, are equal to a map over the batch. -/
theorem foldl_append_eq_map {α β : Type} (f : α → β) (l : List α)
    (acc : List β) :
    l.foldl (fun a x => a ++ [f x]) acc = acc ++ l.map f := by
  induction l generalizing acc with
  | nil => simp
  | cons x xs ih => simp [ih]

/-- C1: corrected.  Counterexample to the claim as stated: the status-write
operation also exists as `NotionManager.update_page_status`
(notion_downloader_main.py 119–165), which performs no encoding discovery and
always issues a `status`-shaped payload; on a record whose `抖音状态` field
uses the `select` encoding, the payload it issues is inconsistent with the
discovered encoding. -/
theorem C1_counterexample :
    detectStatusType ((selStatusPage.getProp "抖音状态").getD default)
        = some StatusEncoding.selectEnc ∧
    payloadEncoding (nm_update_page_status_payload "已下载")
        ≠ StatusEncoding.selectEnc := by
  decide

/-- C1, amended: `NotionDownloader.update_page_status` (the discover-then-
write variant) issues a payload exactly when an encoding is discovered, and
the payload's shape always equals the discovered encoding;
`NotionManager.update_page_status` instead always issues a `status`-shaped
payload without discovery. -/
theorem C1_nd_payload_matches_discovered (page : Page) (lbl : String)
    (pl : StatusPayload)
    (h : nd_update_page_status_payload page lbl = some pl) :
    detectStatusType ((page.getProp "抖音状态").getD default)
      = some (payloadEncoding pl) := by
  unfold nd_update_page_status_payload at h
  rcases hd : detectStatusType ((page.getProp "抖音状态").getD default) with _ | enc
  · rw [hd] at h
    exact absurd h (by simp)
  · rw [hd] at h
    cases enc <;> cases h <;> rfl

/-- C1 witness: the amended theorem at a concrete select-encoded record. -/
theorem C1_nd_payload_matches_discovered_witness :
    detectStatusType ((selStatusPage.getProp "抖音状态").getD default)
      = some (payloadEncoding (StatusPayload.selectPayload "已下载")) :=
  C1_nd_payload_matches_discovered selStatusPage "已下载"
    (StatusPayload.selectPayload "已下载") (by decide)

/-- C4: confirmed.  When the status field's encoding is outside the
recognized set, `NotionDownloader.update_page_status` returns `false` and
issues no patch call of any shape. -/
theorem C4_unrecognized_encoding_no_patch (page : Page) (lbl : String)
    (patchOk : Bool)
    (h : detectStatusType ((page.getProp "抖音状态").getD default) = none) :
    nd_update_page_status (some page) lbl patchOk = (false, none) := by
  have hp : nd_update_page_status_payload page lbl = none := by
    unfold nd_update_page_status_payload
    rw [h]
  simp [nd_update_page_status, hp]

/-- C4 witness: a concrete record whose status field is a checkbox. -/
theorem C4_unrecognized_encoding_no_patch_witness :
    nd_update_page_status (some checkboxStatusPage) "已下载" true
      = (false, none) :=
  C4_unrecognized_encoding_no_patch checkboxStatusPage "已下载" true (by decide)

/-- C5: confirmed.  `get_url_from_page` is bound twice in the class body of
`NotionDownloader` (indices 4 and 16 in source order) and Python class-body
semantics make the later binding the effective one; the effective definition
depends only on the `"抖音url"` property (so the lookup over `抖音链接`,
`URL`, `视频链接`, `链接` in the first definition is unreachable: on a page
carrying its URL under `抖音链接` the first definition would find it while
the effective one returns `""`); and the effective definition returns the
empty string, not an absent marker, when no URL is found. -/
theorem C5_second_definition_shadows :
    (ndClassBindings.filter (fun kv => kv.1 = "get_url_from_page")).map
        (fun kv => kv.2) = [4, 16] ∧
    classAttrLookup ndClassBindings "get_url_from_page" = some 16 ∧
    (∀ p q : Page, p.getProp "抖音url" = q.getProp "抖音url" →
      nd_get_url_from_page p = nd_get_url_from_page q) ∧
    nd_get_url_first linkNamePage = some "https://example.com/v/9" ∧
    nd_get_url_from_page linkNamePage = "" ∧
    nd_get_url_from_page emptyUrlPage = "" := by
  refine ⟨by decide, by decide, ?_, by decide, by decide, by decide⟩
  intro p q h
  unfold nd_get_url_from_page
  rw [h]

/-- C5 witness: the dependence-only-on-`抖音url` conjunct at two concrete
pages that agree on that property (neither has it). -/
theorem C5_second_definition_shadows_witness :
    nd_get_url_from_page linkNamePage = nd_get_url_from_page emptyUrlPage :=
  C5_second_definition_shadows.2.2.1 linkNamePage emptyUrlPage (by decide)

/-- C2: corrected.  Counterexample to the claim as stated:
`NotionDownloader.process_notion_database` writes the record's status field
twice in one pass — an intermediate `下载中` write before the download and a
terminal write after it — here shown on a concrete record with a URL, a
successful download and every patch call completing. -/
theorem C2_counterexample :
    (pnd_process_page goodUrlPage okPatchOracle).1
        = [StatusPayload.selectPayload "下载中",
           StatusPayload.selectPayload "待审核"] ∧
    (pnd_process_page goodUrlPage okPatchOracle).1.length = 2 := by
  decide

/-- C2, amended: the `download_and_update` pipeline of
notion_downloader_main.py writes a record's status at most once per pass;
`process_notion_database` however issues an intermediate `下载中` status
write before the terminal write, so there a record with an extractable URL
receives at least two status writes in one pass — exactly two when no patch
call raises, and a third `下载失败` patch from the `except` handler when
the intermediate or terminal patch raises. -/
theorem C2_status_write_counts (page : Page) (env : DLEnv)
    (patchOk : Bool) (o : PndOracle) :
    (download_and_update page env patchOk).2.length ≤ 1 ∧
    (∀ u, pnd_extract_url ((page.getProp "抖音url").getD default)
        = Except.ok u → u ≠ "" →
      2 ≤ (pnd_process_page page o).1.length) := by
  constructor
  · unfold download_and_update
    by_cases hu : url_truthy (nm_get_url_from_page page)
    · simp only [hu]
      by_cases hs : (dl_download_video
          ((nm_get_url_from_page page).getD "") false env).success
      · simp [hs]
      · simp [hs]
    · simp [hu]
  · intro u hx hu
    unfold pnd_process_page
    simp only [hx, if_neg hu]
    cases o.patch1 with
    | error e => simp [pnd_handler]
    | ok b =>
      cases o.dl <;> cases o.patch2 <;> simp [pnd_handler]

/-- C2 witness: the amended theorem's pnd conjunct at a concrete record
with a URL and an all-completing oracle. -/
theorem C2_status_write_counts_witness :
    (download_and_update goodUrlPage okEnv true).2.length ≤ 1 ∧
    2 ≤ (pnd_process_page goodUrlPage okPatchOracle).1.length := by
  have h := C2_status_write_counts goodUrlPage okEnv true okPatchOracle
  exact ⟨h.1, h.2 "https://example.com/v/1" (by decide) (by decide)⟩

/-- C3: corrected.  Counterexample to the claim as stated: in
`process_notion_database` a record with an extractable URL whose fetch
succeeds receives two status patches (and the terminal label is `待审核`),
not exactly one. -/
theorem C3_counterexample :
    (pnd_process_page goodUrlPage okPatchOracle).1.length ≠ 1 := by
  decide

/-- C3, amended: in `download_and_update`, a record with a truthy extracted
URL receives exactly one status patch, whose label is `已下载` when
`_download_video` reports success and `下载失败` when it reports failure. -/
theorem C3_nm_exactly_one_terminal_patch (page : Page) (env : DLEnv)
    (patchOk : Bool)
    (hu : url_truthy (nm_get_url_from_page page) = true) :
    (download_and_update page env patchOk).2
      = [StatusPayload.statusPayload
          (if (dl_download_video ((nm_get_url_from_page page).getD "")
                false env).success
           then "已下载" else "下载失败")] := by
  unfold download_and_update
  simp only [hu]
  by_cases hs : (dl_download_video
      ((nm_get_url_from_page page).getD "") false env).success
  · simp [hs, nm_update_page_status_payload]
  · simp [hs, nm_update_page_status_payload]

/-- C3 witness: the amended theorem at a concrete record and an
all-successful download oracle. -/
theorem C3_nm_exactly_one_terminal_patch_witness :
    (download_and_update goodUrlPage okEnv true).2
      = [StatusPayload.statusPayload
          (if (dl_download_video ((nm_get_url_from_page goodUrlPage).getD "")
                false okEnv).success
           then "已下载" else "下载失败")] :=
  C3_nm_exactly_one_terminal_patch goodUrlPage okEnv true (by decide)

/-- C6: corrected.  Counterexample to the claim as stated: on a rich-text
URL field whose first element is not a URL and whose second element is,
`NotionManager.get_url_from_page` returns the SECOND element's content
(its loop scans the whole array), while the effective
`NotionDownloader.get_url_from_page` reads the first element only. -/
theorem C6_counterexample :
    nd_get_url_from_page richUrlPage = "备注资料" ∧
    nm_get_url_from_page richUrlPage = some "https://example.com/v/1" := by
  decide

/-- C6, amended: the effective `NotionDownloader.get_url_from_page` selects
the first array element only, for both the rich-text and the title encoding
of the URL field; `NotionManager.get_url_from_page` instead returns the
first element whose content starts with a recognized scheme, which may be a
later element. -/
theorem C6_nd_first_element_only (page : Page) (items : List RichItem)
    (hu : ((page.getProp "抖音url").getD default).url = none) :
    (((page.getProp "抖音url").getD default).rich_text = some items →
      nd_get_url_from_page page = headContent items) ∧
    (((page.getProp "抖音url").getD default).rich_text = none →
      ((page.getProp "抖音url").getD default).title = some items →
      nd_get_url_from_page page = headContent items) := by
  constructor
  · intro hr
    simp only [nd_get_url_from_page, hu, hr]
    cases items <;> rfl
  · intro hr ht
    simp only [nd_get_url_from_page, hu, hr, ht]
    cases items <;> rfl

/-- C6 witness: the rich-text conjunct at the concrete two-element page —
the effective extractor returns the first element's content. -/
theorem C6_nd_first_element_only_witness :
    nd_get_url_from_page richUrlPage
      = headContent
          [{ text := some { content := some "备注资料" },
             plain_text := some "备注资料" },
           { text := some { content := some "https://example.com/v/1" },
             plain_text := some "https://example.com/v/1" }] :=
  (C6_nd_first_element_only richUrlPage _ (by decide)).1 (by decide)

/-- Helper for C7: the rich-text loop of `NotionManager.get_url_from_page`
only ever returns a string that begins with a recognized scheme. -/
theorem nm_rich_first_url_scheme (items : List RichItem) (c : String)
    (h : nm_rich_first_url items = some c) : startsWithHttp c = true := by
  induction items with
  | nil => simp [nm_rich_first_url] at h
  | cons it rest ih =>
    unfold nm_rich_first_url at h
    cases hx : it.text with
    | none =>
      simp only [hx] at h
      exact ih h
    | some t =>
      simp only [hx] at h
      cases hc : t.content with
      | none =>
        simp only [hc] at h
        exact ih h
      | some s =>
        simp only [hc] at h
        by_cases hs : startsWithHttp s
        · rw [if_pos hs] at h
          cases h
          exact hs
        · rw [if_neg hs] at h
          exact ih h

/-- C7: corrected.  Counterexample to the claim as stated: on a url-typed
`抖音url` property holding the string `hello`,
`NotionManager.get_url_from_page` returns it unchecked — a non-empty value
with no recognized URL scheme is not treated as absent. -/
theorem C7_counterexample :
    nm_get_url_from_page helloUrlPage = some "hello" ∧
    startsWithHttp "hello" = false ∧
    "hello" ≠ "" := by
  decide

/-- C7, amended: only the rich-text branch of
`NotionManager.get_url_from_page` enforces the scheme check: on a page whose
`抖音url` property has no `url` key, any returned value begins with
`http://` or `https://` (hence is non-empty); the url-typed branch and the
effective `NotionDownloader.get_url_from_page` return stored values without
any scheme validation. -/
theorem C7_nm_rich_branch_scheme (page : Page) (c : String)
    (hu : ((page.getProp "抖音url").getD default).url = none)
    (h : nm_get_url_from_page page = some c) :
    startsWithHttp c = true := by
  unfold nm_get_url_from_page at h
  cases hp : page.getProp "抖音url" with
  | none =>
    simp [hp] at h
  | some p =>
    have hu' : p.url = none := by
      rw [hp] at hu
      exact hu
    simp only [hp, hu'] at h
    by_cases ht : p.truthy
    · simp only [ht, Bool.not_true] at h
      rw [if_neg (by simp)] at h
      cases hr : p.rich_text with
      | none =>
        simp [hr] at h
      | some items =>
        simp only [hr] at h
        by_cases he : items.isEmpty
        · simp [he] at h
        · rw [if_neg he] at h
          exact nm_rich_first_url_scheme items c h
    · simp [ht] at h

/-- C7 witness: the amended theorem at a concrete rich-text page — the value
returned for it does begin with a recognized scheme. -/
theorem C7_nm_rich_branch_scheme_witness :
    startsWithHttp "https://example.com/v/1" = true :=
  C7_nm_rich_branch_scheme richUrlPage "https://example.com/v/1"
    (by decide) (by decide)

/-- Helper for C8: an iteration of the `process_notion_database` loop lets
no exception escape as long as the `except` handler's own patch call does
not raise (exceptions in the try body are caught by the per-record
`except`). -/
theorem pnd_process_page_no_raise (page : Page) (o : PndOracle)
    (h : patchCompletes o.patchH = true) :
    (pnd_process_page page o).2 = false := by
  have hb : (pnd_handler o).2 = false := by
    simp [pnd_handler, h]
  unfold pnd_process_page
  cases hx : pnd_extract_url ((page.getProp "抖音url").getD default) with
  | error e => exact hb
  | ok u =>
    by_cases hu : u = ""
    · simp [hu]
    · simp only [if_neg hu]
      cases o.patch1 with
      | error e => exact hb
      | ok b =>
        cases o.dl <;> cases o.patch2 <;> simp_all [pnd_handler]

/-- Helper for C8: when no handler patch raises, the
`process_notion_database` pass does not abort and emits one trace per
record. -/
theorem pnd_pass_total (pages : List Page) (oOf : Page → PndOracle)
    (hH : ∀ p ∈ pages, patchCompletes ((oOf p).patchH) = true) :
    (pnd_pass pages oOf).2 = false ∧
    (pnd_pass pages oOf).1.length = pages.length := by
  induction pages with
  | nil => simp [pnd_pass]
  | cons p rest ih =>
    have hp : (pnd_process_page p (oOf p)).2 = false :=
      pnd_process_page_no_raise p (oOf p) (hH p (List.mem_cons_self _ _))
    have ihr := ih (fun q hq => hH q (List.mem_cons_of_mem _ hq))
    rcases hpp : pnd_process_page p (oOf p) with ⟨tr, raised⟩
    rw [hpp] at hp
    simp only at hp
    subst hp
    simp [pnd_pass, hpp, ihr.1, ihr.2]

/-- C8: corrected.  Counterexample to the claim as stated: a status write
that raises (the `httpx` patch in `update_page_properties` has no
try/except) inside the per-record `except` handler of
`process_notion_database` propagates out of the `for` loop — here a
two-record batch where the first record's terminal patch and handler patch
both raise yields only one processed record and an aborted pass, so the
second record is never processed. -/
theorem C8_counterexample :
    pnd_pass [goodUrlPage, richUrlPage] (fun _ => raisingPatchOracle)
      = ([[StatusPayload.selectPayload "下载中",
           StatusPayload.selectPayload "待审核",
           StatusPayload.selectPayload "下载失败"]], true) ∧
    (pnd_pass [goodUrlPage, richUrlPage]
        (fun _ => raisingPatchOracle)).1.length
      ≠ [goodUrlPage, richUrlPage].length := by
  decide

/-- C8, amended: in `main`'s `download_and_update` loop every record of the
batch is processed, each outcome a function of that record alone (schema
miss, fetch failure and status-write failure are absorbed per record); in
`process_notion_database` the same isolation holds provided no patch call
raises inside the per-record `except` handler — exceptions in the try body,
including raising intermediate or terminal patches, are caught per record —
but a raising handler patch aborts the remaining batch. -/
theorem C8_pass_isolation (pages : List Page)
    (envOf : Page → DLEnv) (patchOf : Page → Bool)
    (oOf : Page → PndOracle)
    (hH : ∀ p ∈ pages, patchCompletes ((oOf p).patchH) = true) :
    nm_pass pages envOf patchOf
        = pages.map (fun p => (download_and_update p (envOf p) (patchOf p)).1) ∧
    (nm_pass pages envOf patchOf).length = pages.length ∧
    (pnd_pass pages oOf).2 = false ∧
    (pnd_pass pages oOf).1.length = pages.length := by
  have h1 : nm_pass pages envOf patchOf
      = pages.map (fun p => (download_and_update p (envOf p) (patchOf p)).1) := by
    unfold nm_pass
    rw [foldl_append_eq_map]
    simp
  have h2 := pnd_pass_total pages oOf hH
  refine ⟨h1, ?_, h2.1, h2.2⟩
  rw [h1, List.length_map]

/-- C8 witness: the amended theorem at a concrete two-record batch whose
handler patches all complete — the pass does not abort and both records are
processed. -/
theorem C8_pass_isolation_witness :
    (pnd_pass [goodUrlPage, richUrlPage] (fun _ => okPatchOracle)).2 = false ∧
    (pnd_pass [goodUrlPage, richUrlPage]
        (fun _ => okPatchOracle)).1.length
      = [goodUrlPage, richUrlPage].length := by
  have h := C8_pass_isolation [goodUrlPage, richUrlPage]
    (fun _ => okEnv) (fun _ => true) (fun _ => okPatchOracle) (by decide)
  exact ⟨h.2.2.1, h.2.2.2⟩

/-- Helper for C10: the `try` body of `_download_video` only reports success
with a video path attached. -/
theorem dv_body_success_has_path (url : String) (tk : Bool) (env : DLEnv)
    (r : DLResult) (h : dv_body url tk env = Except.ok r)
    (hs : r.success = true) : r.video_path.isSome = true := by
  unfold dv_body at h
  repeat' split at h
  all_goals try (cases h)
  all_goals simp_all [dlInitResult]

/-- C10: confirmed.  `_download_video` always returns the five-field result
record (the Lean result type mirrors the dictionary initialized before the
`try` block, so every return carries all five keys); whenever `success` is
true the `video_path` is present; and a raised exception never propagates —
the handler converts it into a result with `success = false` and a non-empty
message. -/
theorem C10_download_video_total (url : String) (tk : Bool) (env : DLEnv) :
    ((dl_download_video url tk env).success = true →
      (dl_download_video url tk env).video_path.isSome = true) ∧
    (∀ e, dv_body url tk env = Except.error e →
      (dl_download_video url tk env).success = false ∧
      (dl_download_video url tk env).message ≠ "") := by
  constructor
  · intro hs
    cases hb : dv_body url tk env with
    | ok r =>
      have hr : dl_download_video url tk env = r := by
        unfold dl_download_video
        rw [hb]
      rw [hr] at hs ⊢
      exact dv_body_success_has_path url tk env r hb hs
    | error e =>
      have hr : dl_download_video url tk env
          = { dlInitResult with message := "下载过程中发生错误: " ++ e } := by
        unfold dl_download_video
        rw [hb]
      rw [hr] at hs
      simp [dlInitResult] at hs
  · intro e he
    have hr : dl_download_video url tk env
        = { dlInitResult with message := "下载过程中发生错误: " ++ e } := by
      unfold dl_download_video
      rw [he]
    rw [hr]
    refine ⟨rfl, ?_⟩
    intro hmsg
    simp only [dlInitResult] at hmsg
    have hlen := congrArg String.length hmsg
    rw [String.length_append] at hlen
    have hpos : 0 < ("下载过程中发生错误: " : String).length := by decide
    have hz : ("" : String).length = 0 := by decide
    rw [hz] at hlen
    omega

/-- C10 witness: the exception conjunct at a concrete oracle whose first
external step raises. -/
theorem C10_download_video_total_witness :
    (dl_download_video "u" false failEnv).success = false ∧
    (dl_download_video "u" false failEnv).message ≠ "" :=
  (C10_download_video_total "u" false failEnv).2 "boom" rfl

/-- Helper for C9: any label `recordWrite` produces is terminal — it is
never the pending label the query filters on. -/
theorem recordWrite_terminal (p : Page) (f : Bool) (l : String)
    (h : recordWrite p f = some l) : l ≠ "待下载" := by
  unfold recordWrite at h
  by_cases hu : url_truthy (nm_get_url_from_page p)
  · rw [if_pos hu] at h
    cases f
    · cases h
      decide
    · cases h
      decide
  · rw [if_neg hu] at h
    cases h

/-- Helper for C9: every write issued during a pass carries a terminal
label. -/
theorem passWrites_terminal (store : List SRecord) (f : String → Bool) :
    ∀ w ∈ passWrites store f, w.2 ≠ "待下载" := by
  intro w hw
  unfold passWrites at hw
  rcases List.mem_filterMap.mp hw with ⟨r, _, hmap⟩
  rcases Option.map_eq_some'.mp hmap with ⟨l, hl, hwl⟩
  rw [← hwl]
  exact recordWrite_terminal r.page (f r.page.id) l hl

/-- Helper for C9: reflecting writes with terminal labels preserves the
property that no record with the given id is pending. -/
theorem applyWrites_keep :
    ∀ (ws : List (String × String)) (store : List SRecord) (id : String),
    (∀ w ∈ ws, w.2 ≠ "待下载") →
    (∀ r ∈ store, r.page.id = id → r.statusValue ≠ "待下载") →
    ∀ r ∈ applyWrites store ws, r.page.id = id → r.statusValue ≠ "待下载" := by
  intro ws
  induction ws with
  | nil =>
    intro store id _ hstore
    simpa [applyWrites] using hstore
  | cons w ws ih =>
    intro store id hter hstore
    have hter' : ∀ v ∈ ws, v.2 ≠ "待下载" :=
      fun v hv => hter v (List.mem_cons_of_mem _ hv)
    have hstep : ∀ r ∈ applyWrite store w,
        r.page.id = id → r.statusValue ≠ "待下载" := by
      intro r hr hrid
      unfold applyWrite at hr
      rcases List.mem_map.mp hr with ⟨r0, hr0, heq⟩
      by_cases hc : r0.page.id = w.1
      · rw [if_pos hc] at heq
        rw [← heq]
        exact hter w (List.mem_cons_self _ _)
      · rw [if_neg hc] at heq
        rw [← heq]
        exact hstore r0 hr0 (by rw [heq]; exact hrid)
    rw [show applyWrites store (w :: ws) = applyWrites (applyWrite store w) ws
          from rfl]
    exact ih (applyWrite store w) id hter' hstep

/-- Helper for C9: after reflecting a pass's writes, a record whose id was
written is no longer pending. -/
theorem applyWrites_written :
    ∀ (ws : List (String × String)) (store : List SRecord) (id : String),
    (∀ w ∈ ws, w.2 ≠ "待下载") →
    id ∈ ws.map Prod.fst →
    ∀ r ∈ applyWrites store ws, r.page.id = id → r.statusValue ≠ "待下载" := by
  intro ws
  induction ws with
  | nil =>
    intro store id _ hid
    simp at hid
  | cons w ws ih =>
    intro store id hter hid
    have hter' : ∀ v ∈ ws, v.2 ≠ "待下载" :=
      fun v hv => hter v (List.mem_cons_of_mem _ hv)
    rw [show applyWrites store (w :: ws) = applyWrites (applyWrite store w) ws
          from rfl]
    by_cases hcase : id ∈ ws.map Prod.fst
    · exact ih (applyWrite store w) id hter' hcase
    · have hid1 : id = w.1 := by
        rcases List.mem_map.mp hid with ⟨v, hv, hveq⟩
        rcases List.mem_cons.mp hv with h1 | h2
        · rw [← hveq, h1]
        · exact absurd (hveq ▸ List.mem_map_of_mem Prod.fst h2) hcase
      have hstep : ∀ r ∈ applyWrite store w,
          r.page.id = id → r.statusValue ≠ "待下载" := by
        intro r hr hrid
        unfold applyWrite at hr
        rcases List.mem_map.mp hr with ⟨r0, _, heq⟩
        by_cases hc : r0.page.id = w.1
        · rw [if_pos hc] at heq
          rw [← heq]
          exact hter w (List.mem_cons_self _ _)
        · rw [if_neg hc] at heq
          exact absurd (by rw [heq, hrid, hid1]) hc
      exact applyWrites_keep ws (applyWrite store w) id hter' hstep

/-- C9: confirmed.  With a stubbed store that reflects status writes back
and no other remote change, any record that received a (necessarily
terminal) status write during the first pass no longer satisfies the
`抖音状态 equals 待下载` query filter, so the second pass issues zero fetch
invocations for it. -/
theorem C9_second_pass_no_refetch (store : List SRecord)
    (fetch1 fetch2 : String → Bool) (id lbl : String)
    (h : (id, lbl) ∈ passWrites store fetch1) :
    id ∉ passFetches (applyWrites store (passWrites store fetch1)) fetch2 := by
  intro hmem
  unfold passFetches at hmem
  rcases List.mem_filterMap.mp hmem with ⟨r, hr, hg⟩
  have hrid : r.page.id = id := by
    by_cases hu : url_truthy (nm_get_url_from_page r.page)
    · rw [if_pos hu] at hg
      cases hg
      rfl
    · rw [if_neg hu] at hg
      cases hg
  have hmemstore : r ∈ applyWrites store (passWrites store fetch1) :=
    (List.mem_filter.mp hr).1
  have hpend : r.statusValue = "待下载" :=
    of_decide_eq_true (List.mem_filter.mp hr).2
  have hidw : id ∈ (passWrites store fetch1).map Prod.fst :=
    List.mem_map.mpr ⟨(id, lbl), h, rfl⟩
  exact applyWrites_written (passWrites store fetch1) store id
    (passWrites_terminal store fetch1) hidw r hmemstore hrid hpend

/-- C9 witness: a one-record pending store with a valid URL and a successful
fetch — the reconciled record is not fetched again on the second pass. -/
theorem C9_second_pass_no_refetch_witness :
    "abc" ∉ passFetches (applyWrites demoStore (passWrites demoStore demoFetch))
              demoFetch :=
  C9_second_pass_no_refetch demoStore demoFetch demoFetch "abc" "已下载"
    (by decide)
